import Mathlib

/-!
Shallow embedding of `src/AzureAD.tsx` from the `react-aad-msal` repository:
the authentication-state bridge component `AzureAD`. The component's
stateful behaviour is modelled as pure functions from a component value to
a new component value together with an explicit trace of observable effects
(handler registrations, re-renders, deprecation warnings, provider
login/logout calls). Content resolution (`render`,
`getChildrenOrFunction`) is modelled over a small JavaScript-value type
that captures truthiness.

The account-info payload type is kept abstract as a type parameter `α`
(`IAccountInfo` is opaque to the bridge; `accountInfo` is `IAccountInfo |
null`, modelled as `Option α`).
-/

/-- Modelled from the spec: `AuthenticationState` is declared in
`src/Interfaces.ts`, which is not part of the sources here. The spec fixes
it as a closed enumeration with members `Unauthenticated`, `Authenticated`
and an in-progress/transitional member. -/
inductive AuthenticationState where
  | Unauthenticated
  | InProgress
  | Authenticated
deriving DecidableEq, Repr

/-- A JavaScript runtime value as far as the bridge's content resolution
inspects one: it only ever asks for truthiness and for being a function
(functions are represented separately, in `Children`). Numbers are
modelled as integers; `0`, the empty string, `false`, `null` and
`undefined` are the falsy values. A produced JSX element is `vElem`
(always truthy), tagged by a number so that distinct elements can be told
apart. -/
inductive JSVal where
  | vNull
  | vUndefined
  | vBool (b : Bool)
  | vNum (n : Int)
  | vStr (s : String)
  | vElem (id : Nat)
deriving DecidableEq, Repr

/-- JavaScript truthiness of a `JSVal`, as tested by `if (x)` / `x || y`. -/
def truthy : JSVal → Bool
  | JSVal.vNull => false
  | JSVal.vUndefined => false
  | JSVal.vBool b => b
  | JSVal.vNum n => decide (n ≠ 0)
  | JSVal.vStr s => decide (s ≠ "")
  | JSVal.vElem _ => true

/-- The coercion `x || null` applied to a content result: a falsy value
becomes `null`, a truthy value passes through. -/
def jsOrNull (v : JSVal) : JSVal :=
  if truthy v then v else JSVal.vNull

/-- The bridge's local snapshot, `IAzureADState`: field order follows the
initializer in the source (`accountInfo` first). -/
structure IAzureADState (α : Type) where
  accountInfo : Option α
  authenticationState : AuthenticationState
deriving DecidableEq, Repr

/-- The reference to a login/logout action that the component passes into
caller-supplied functions. The source passes the bound class methods
`this.login` / `this.logout` to the deprecated functions, but destructures
`login` and `logout` straight off `this.authProvider` for the generic
children-function props. -/
inductive ActionRef where
  | bridgeLogin
  | bridgeLogout
  | providerLogin
  | providerLogout
deriving DecidableEq, Repr

/-- The props bundle `IAzureADFunctionProps` handed to a children
function. -/
structure IAzureADFunctionProps (α : Type) where
  login : ActionRef
  logout : ActionRef
  authenticationState : AuthenticationState
  accountInfo : Option α
deriving DecidableEq, Repr

/-- The caller's content description (`children`): absent, a static value,
or a function of the props bundle. -/
inductive Children (α : Type) where
  | absent
  | static (v : JSVal)
  | func (f : IAzureADFunctionProps α → JSVal)

/-- Which deprecation warning `console.warn` prints. -/
inductive Warning where
  | authenticatedFunctionDeprecated
  | unauthenticatedFunctionDeprecated
  | accountInfoCallbackDeprecated
deriving DecidableEq, Repr

/-- An observable effect of the bridge: calls into the provider handle,
re-renders made visible to the content resolver, deprecation warnings, and
invocations of the caller's deprecated account-info callback. -/
inductive Effect (α : Type) where
  | registerAuthenticationStateHandler
  | registerAcountInfoHandler
  | registerReduxStore
  | unregisterAuthenticationStateHandler
  | unregisterAccountInfoHandler
  | rerender (st : IAzureADState α)
  | warn (w : Warning)
  | accountInfoCallback (info : α)
  | providerLogin
  | providerLogout
deriving DecidableEq, Repr

/-- The provider handle at its interface boundary, as the bridge reads it
synchronously at construction: `getAccountInfo()` and
`authenticationState`. The provider's own behaviour (what `login()` /
`logout()` eventually do) is outside the bridge and appears only as
`Effect.providerLogin` / `Effect.providerLogout` in traces. -/
structure MsalAuthProvider (α : Type) where
  accountInfo : Option α
  authenticationState : AuthenticationState
deriving DecidableEq, Repr

/-- The caller-supplied props (`IAzureADProps`) that influence the
stateful behaviour: `forceLogin`, whether a redux store was supplied, and
whether the deprecated `accountInfoCallback` was supplied (its body is
opaque; its invocation is the effect `Effect.accountInfoCallback`). -/
structure BridgeProps where
  forceLogin : Bool
  hasReduxStore : Bool
  hasAccountInfoCallback : Bool
deriving DecidableEq, Repr

/-- The component instance: its React state plus whether it is currently
mounted (React applies `setState` only on a mounted component). -/
structure Component (α : Type) where
  state : IAzureADState α
  mounted : Bool
deriving DecidableEq, Repr

namespace AzureAD

variable {α : Type}

/-- Models `React.Component.setState` for this class component: while the
component is mounted the update is applied and the re-render of the new
state becomes observable (the `rerender` effect), after which the optional
second-argument callback runs. React ignores a `setState` on a component
that is not mounted (torn down, or not yet mounted during the
constructor): no update, no re-render, no callback. -/
def reactSetState (c : Component α) (upd : IAzureADState α → IAzureADState α)
    (callback : Component α → List (Effect α)) : Component α × List (Effect α) :=
  if c.mounted then
    let c' : Component α := { c with state := upd c.state }
    (c', Effect.rerender c'.state :: callback c')
  else
    (c, [])

/-- The state-change handler `setAuthenticationState` (AzureAD.tsx lines
139-147): no-op when the delivered value equals the current snapshot
value; otherwise `setState` with a callback that fires `this.login()`
when the new state is `Unauthenticated` and `forceLogin` is set. -/
def setAuthenticationState (props : BridgeProps) (c : Component α)
    (newState : AuthenticationState) : Component α × List (Effect α) :=
  if newState ≠ c.state.authenticationState then
    reactSetState c
      (fun st => { st with authenticationState := newState })
      (fun _ =>
        if newState = AuthenticationState.Unauthenticated ∧ props.forceLogin = true then
          [Effect.providerLogin]
        else [])
  else
    (c, [])

/-- The account-info handler `onAccountInfoChanged` (AzureAD.tsx lines
149-163): unconditional `setState` replacing `accountInfo`, then, when
the deprecated `accountInfoCallback` prop was supplied, a deprecation
warning followed by the callback invocation with the new value. -/
def onAccountInfoChanged (props : BridgeProps) (c : Component α)
    (newAccountInfo : α) : Component α × List (Effect α) :=
  let r := reactSetState c
    (fun st => { st with accountInfo := some newAccountInfo })
    (fun _ => [])
  if props.hasAccountInfoCallback then
    (r.1, r.2 ++ [Effect.warn Warning.accountInfoCallbackDeprecated,
                  Effect.accountInfoCallback newAccountInfo])
  else
    (r.1, r.2)

/-- The private `login` action (AzureAD.tsx lines 165-167): delegates
unconditionally to `this.authProvider.login()`. -/
def login : List (Effect α) := [Effect.providerLogin]

/-- The private `logout` action (AzureAD.tsx lines 169-175): returns
early, calling nothing, unless the snapshot state is `Authenticated`;
otherwise delegates to `this.authProvider.logout()`. It never touches the
component's state. -/
def logout (c : Component α) : List (Effect α) :=
  if c.state.authenticationState ≠ AuthenticationState.Authenticated then
    []
  else
    [Effect.providerLogout]

/-- The handler registrations performed by the constructor body
(AzureAD.tsx lines 70-75), in source order. -/
def constructRegs (props : BridgeProps) : List (Effect α) :=
  [Effect.registerAuthenticationStateHandler, Effect.registerAcountInfoHandler]
    ++ (if props.hasReduxStore then [Effect.registerReduxStore] else [])

/-- The component as it stands right after the field initializers ran
(AzureAD.tsx lines 59-65): the snapshot is read synchronously off the
provider handle, and the component is not yet mounted. -/
def initialComponent (provider : MsalAuthProvider α) : Component α :=
  { state := { accountInfo := provider.accountInfo,
               authenticationState := provider.authenticationState },
    mounted := false }

/-- The constructor (AzureAD.tsx lines 67-88): field initializers read the
provider synchronously, the body registers the two handlers (and the redux
store when supplied), then dispatches on the initial state: when
`Authenticated` with a non-null account info it runs
`onAccountInfoChanged` on that info; when `Unauthenticated` with
`forceLogin` it runs `this.login()`. -/
def construct (props : BridgeProps) (provider : MsalAuthProvider α) :
    Component α × List (Effect α) :=
  let c0 : Component α := initialComponent provider
  let regs : List (Effect α) := constructRegs props
  if c0.state.authenticationState = AuthenticationState.Authenticated then
    match c0.state.accountInfo with
    | some accountInfo =>
        let r := onAccountInfoChanged props c0 accountInfo
        (r.1, regs ++ r.2)
    | none => (c0, regs)
  else if c0.state.authenticationState = AuthenticationState.Unauthenticated then
    if props.forceLogin then (c0, regs ++ login) else (c0, regs)
  else
    (c0, regs)

/-- React mounting: after construction and the first render the component
is mounted (the source defines no `componentDidMount`, so nothing else
happens). -/
def mount (c : Component α) : Component α := { c with mounted := true }

/-- Teardown, `componentWillUnmount` (AzureAD.tsx lines 90-93): unregister
exactly the two handlers registered at construction; afterwards the
component is unmounted, so React ignores any further `setState`. -/
def componentWillUnmount (c : Component α) : Component α × List (Effect α) :=
  ({ c with mounted := false },
   [Effect.unregisterAuthenticationStateHandler, Effect.unregisterAccountInfoHandler])

/-- The helper `getChildrenOrFunction` (AzureAD.tsx lines 177-188): a
falsy `children` value yields `null`; a function is invoked with the props
bundle and its result returned as-is; any other (truthy) value is returned
unchanged. A function value is always truthy. -/
def getChildrenOrFunction (children : Children α) (props : IAzureADFunctionProps α) :
    JSVal :=
  match children with
  | Children.absent => JSVal.vNull
  | Children.static v => if truthy v then v else JSVal.vNull
  | Children.func f => f props

/-- The caller-supplied render configuration: the two deprecated content
functions and the generic `children` content description. The deprecated
functions receive the action reference the source passes them and may
return any runtime value (the source tests the result for truthiness). -/
structure RenderCfg (α : Type) where
  authenticatedFunction : Option (ActionRef → JSVal)
  unauthenticatedFunction : Option (ActionRef → JSVal)
  children : Children α

/-- The `childrenFunctionProps` bundle built in `render` (AzureAD.tsx
lines 101-106): `login` and `logout` are destructured off
`this.authProvider`. -/
def childrenFunctionProps (st : IAzureADState α) : IAzureADFunctionProps α :=
  { login := ActionRef.providerLogin,
    logout := ActionRef.providerLogout,
    authenticationState := st.authenticationState,
    accountInfo := st.accountInfo }

/-- The content resolver `render` (AzureAD.tsx lines 95-137), returning
the produced content and the deprecation warnings printed while
resolving. `Authenticated`: a supplied deprecated `authenticatedFunction`
is called with `this.logout`; a truthy result is returned with a warning,
otherwise resolution falls through to `getChildrenOrFunction`.
`Unauthenticated`: a supplied deprecated `unauthenticatedFunction` leads
to a warning, the call with `this.login`, and its result coerced by
`|| null`; only when none was supplied does resolution use
`getChildrenOrFunction`. Any other state returns `null`. -/
def render (cfg : RenderCfg α) (st : IAzureADState α) : JSVal × List Warning :=
  let fnProps := childrenFunctionProps st
  match st.authenticationState with
  | AuthenticationState.Authenticated =>
    match cfg.authenticatedFunction with
    | some f =>
        let authFunctionResult := f ActionRef.bridgeLogout
        if truthy authFunctionResult then
          (authFunctionResult, [Warning.authenticatedFunctionDeprecated])
        else
          (getChildrenOrFunction cfg.children fnProps, [])
    | none => (getChildrenOrFunction cfg.children fnProps, [])
  | AuthenticationState.Unauthenticated =>
    match cfg.unauthenticatedFunction with
    | some f =>
        (jsOrNull (f ActionRef.bridgeLogin), [Warning.unauthenticatedFunctionDeprecated])
    | none => (getChildrenOrFunction cfg.children fnProps, [])
  | _ => (JSVal.vNull, [])

/-- Folding a sequence of state-change notifications through
`setAuthenticationState`, accumulating the effect trace. -/
def applyStateNotifications (props : BridgeProps) (c : Component α) :
    List AuthenticationState → Component α × List (Effect α)
  | [] => (c, [])
  | n :: ns =>
      let r := setAuthenticationState props c n
      let r2 := applyStateNotifications props r.1 ns
      (r2.1, r.2 ++ r2.2)

/-- Folding a sequence of account-info notifications through
`onAccountInfoChanged`, accumulating the effect trace. -/
def applyAccountNotifications (props : BridgeProps) (c : Component α) :
    List α → Component α × List (Effect α)
  | [] => (c, [])
  | a :: as =>
      let r := onAccountInfoChanged props c a
      let r2 := applyAccountNotifications props r.1 as
      (r2.1, r.2 ++ r2.2)

end AzureAD

namespace AzureAD

variable {α : Type}

theorem reactSetState_mounted (c : Component α) (upd : IAzureADState α → IAzureADState α)
    (cb : Component α → List (Effect α)) :
    ((reactSetState c upd cb).1).mounted = c.mounted := by
  unfold reactSetState
  split <;> rfl

theorem setAuthenticationState_mounted (props : BridgeProps) (c : Component α)
    (n : AuthenticationState) :
    ((setAuthenticationState props c n).1).mounted = c.mounted := by
  unfold setAuthenticationState
  split
  · exact reactSetState_mounted _ _ _
  · rfl

theorem onAccountInfoChanged_mounted (props : BridgeProps) (c : Component α) (a : α) :
    ((onAccountInfoChanged props c a).1).mounted = c.mounted := by
  unfold onAccountInfoChanged
  split <;> exact reactSetState_mounted _ _ _

theorem setAuthenticationState_state (props : BridgeProps) (c : Component α)
    (hm : c.mounted = true) (n : AuthenticationState) :
    ((setAuthenticationState props c n).1).state.authenticationState = n := by
  unfold setAuthenticationState reactSetState
  by_cases h : n = c.state.authenticationState
  · simp [h]
  · simp [h, hm]

theorem onAccountInfoChanged_account (props : BridgeProps) (c : Component α)
    (hm : c.mounted = true) (a : α) :
    ((onAccountInfoChanged props c a).1).state.accountInfo = some a := by
  by_cases hcb : props.hasAccountInfoCallback <;>
    simp [onAccountInfoChanged, reactSetState, hm, hcb]

theorem onAccountInfoChanged_auth (props : BridgeProps) (c : Component α) (a : α) :
    ((onAccountInfoChanged props c a).1).state.authenticationState =
      c.state.authenticationState := by
  by_cases hm : c.mounted <;> by_cases hcb : props.hasAccountInfoCallback <;>
    simp [onAccountInfoChanged, reactSetState, hm, hcb]

theorem applyStateNotifications_last (props : BridgeProps) :
    ∀ (ns : List AuthenticationState) (c : Component α), c.mounted = true →
      ∀ l, ns.getLast? = some l →
      ((applyStateNotifications props c ns).1).state.authenticationState = l := by
  intro ns
  induction ns with
  | nil => intro c hm l hl; simp at hl
  | cons n ns ih =>
    intro c hm l hl
    cases ns with
    | nil =>
      have hn : l = n := by simpa using hl.symm
      subst hn
      simpa [applyStateNotifications] using setAuthenticationState_state props c hm l
    | cons m ms =>
      rw [List.getLast?_cons_cons] at hl
      have hm' : ((setAuthenticationState props c n).1).mounted = true := by
        rw [setAuthenticationState_mounted]; exact hm
      simpa [applyStateNotifications] using
        ih ((setAuthenticationState props c n).1) hm' l hl

theorem applyAccountNotifications_last (props : BridgeProps) :
    ∀ (as : List α) (c : Component α), c.mounted = true →
      ∀ l, as.getLast? = some l →
      ((applyAccountNotifications props c as).1).state.accountInfo = some l := by
  intro as
  induction as with
  | nil => intro c hm l hl; simp at hl
  | cons a as ih =>
    intro c hm l hl
    cases as with
    | nil =>
      have ha : l = a := by simpa using hl.symm
      subst ha
      simpa [applyAccountNotifications] using onAccountInfoChanged_account props c hm l
    | cons b bs =>
      rw [List.getLast?_cons_cons] at hl
      have hm' : ((onAccountInfoChanged props c a).1).mounted = true := by
        rw [onAccountInfoChanged_mounted]; exact hm
      simpa [applyAccountNotifications] using
        ih ((onAccountInfoChanged props c a).1) hm' l hl

theorem onAccountInfoChanged_warnCount [DecidableEq α] (props : BridgeProps)
    (hcb : props.hasAccountInfoCallback = true) (c : Component α) (a : α) :
    ((onAccountInfoChanged props c a).2).count
        (Effect.warn Warning.accountInfoCallbackDeprecated) = 1 := by
  unfold onAccountInfoChanged reactSetState
  by_cases hm : c.mounted <;>
    simp [hcb, hm, List.count_cons, List.count_nil, List.count_append, beq_iff_eq]

theorem applyAccountNotifications_warnCount [DecidableEq α] (props : BridgeProps)
    (hcb : props.hasAccountInfoCallback = true) :
    ∀ (as : List α) (c : Component α),
      ((applyAccountNotifications props c as).2).count
          (Effect.warn Warning.accountInfoCallbackDeprecated) = as.length := by
  intro as
  induction as with
  | nil => intro c; simp [applyAccountNotifications]
  | cons a as ih =>
    intro c
    simp [applyAccountNotifications, List.count_append,
      onAccountInfoChanged_warnCount props hcb c a, ih, Nat.add_comm]

end AzureAD

namespace AzureAD

variable {α : Type}

/-- C7: content resolution for state `Authenticated`: a supplied deprecated
`authenticatedFunction` is called with the bridge's `logout`; exactly when
its result is truthy, a deprecation warning is emitted and that result is
returned, short-circuiting the generic path; otherwise (no deprecated
function, or a falsy result) resolution goes through
`getChildrenOrFunction` on the props bundle
`childrenFunctionProps st = (accountInfo, authenticationState, login, logout)`
with no warning. -/
theorem render_authenticated_precedence (cfg : RenderCfg α) (st : IAzureADState α)
    (hst : st.authenticationState = AuthenticationState.Authenticated) :
    (∀ f, cfg.authenticatedFunction = some f →
      (truthy (f ActionRef.bridgeLogout) = true →
        render cfg st = (f ActionRef.bridgeLogout,
          [Warning.authenticatedFunctionDeprecated])) ∧
      (truthy (f ActionRef.bridgeLogout) = false →
        render cfg st =
          (getChildrenOrFunction cfg.children (childrenFunctionProps st), []))) ∧
    (cfg.authenticatedFunction = none →
      render cfg st =
        (getChildrenOrFunction cfg.children (childrenFunctionProps st), [])) := by
  refine ⟨?_, ?_⟩
  · intro f hf
    refine ⟨?_, ?_⟩ <;> intro ht <;> simp [render, hst, hf, ht]
  · intro hf
    simp [render, hst, hf]

/-- C7 witness: with a deprecated authenticated function returning a truthy
element, resolution returns that element plus the warning, ignoring the
generic children. -/
theorem render_authenticated_precedence_ev :
    render (⟨some (fun _ => JSVal.vElem 7), none, Children.static (JSVal.vElem 3)⟩ :
        RenderCfg Nat)
      ⟨some 5, AuthenticationState.Authenticated⟩ =
      (JSVal.vElem 7, [Warning.authenticatedFunctionDeprecated]) := by
  have h := (render_authenticated_precedence
      (⟨some (fun _ => JSVal.vElem 7), none, Children.static (JSVal.vElem 3)⟩ :
        RenderCfg Nat)
      ⟨some 5, AuthenticationState.Authenticated⟩ rfl).1
      (fun _ => JSVal.vElem 7) rfl
  exact h.1 rfl

/-- C8: content resolution for state `Unauthenticated`: a supplied
deprecated `unauthenticatedFunction` leads to a deprecation warning and the
call with the bridge's `login`, its result coerced by the source's
`|| null` (a falsy result becomes `null`), never falling back to the
generic content description; only with no deprecated function does
resolution use `getChildrenOrFunction`. -/
theorem render_unauthenticated_precedence (cfg : RenderCfg α) (st : IAzureADState α)
    (hst : st.authenticationState = AuthenticationState.Unauthenticated) :
    (∀ f, cfg.unauthenticatedFunction = some f →
      render cfg st = (jsOrNull (f ActionRef.bridgeLogin),
        [Warning.unauthenticatedFunctionDeprecated])) ∧
    (∀ v, truthy v = false → jsOrNull v = JSVal.vNull) ∧
    (cfg.unauthenticatedFunction = none →
      render cfg st =
        (getChildrenOrFunction cfg.children (childrenFunctionProps st), [])) := by
  refine ⟨?_, ?_, ?_⟩
  · intro f hf
    simp [render, hst, hf]
  · intro v hv
    simp [jsOrNull, hv]
  · intro hf
    simp [render, hst, hf]

/-- C8 witness: with a deprecated unauthenticated function returning a
falsy value and generic children also supplied, resolution returns `null`
plus the warning — it does not fall back to the children. -/
theorem render_unauthenticated_precedence_ev :
    render (⟨none, some (fun _ => JSVal.vUndefined), Children.static (JSVal.vElem 2)⟩ :
        RenderCfg Nat)
      ⟨none, AuthenticationState.Unauthenticated⟩ =
      (JSVal.vNull, [Warning.unauthenticatedFunctionDeprecated]) := by
  have h := (render_unauthenticated_precedence
      (⟨none, some (fun _ => JSVal.vUndefined), Children.static (JSVal.vElem 2)⟩ :
        RenderCfg Nat)
      ⟨none, AuthenticationState.Unauthenticated⟩ rfl).1
      (fun _ => JSVal.vUndefined) rfl
  simpa using h

/-- C9: content resolution for any authentication state other than
`Authenticated` and `Unauthenticated` (the in-progress/transitional state)
produces no content, regardless of the supplied content description or
deprecated functions. -/
theorem render_transitional_no_content (cfg : RenderCfg α) (st : IAzureADState α)
    (h1 : st.authenticationState ≠ AuthenticationState.Authenticated)
    (h2 : st.authenticationState ≠ AuthenticationState.Unauthenticated) :
    render cfg st = (JSVal.vNull, []) := by
  cases hs : st.authenticationState with
  | Unauthenticated => exact absurd hs h2
  | Authenticated => exact absurd hs h1
  | InProgress => simp [render, hs]

/-- C9 witness: in the in-progress state, even with both deprecated
functions and static children supplied, nothing is produced. -/
theorem render_transitional_no_content_ev :
    render (⟨some (fun _ => JSVal.vElem 1), some (fun _ => JSVal.vElem 2),
        Children.static (JSVal.vElem 3)⟩ : RenderCfg Nat)
      ⟨some 9, AuthenticationState.InProgress⟩ = (JSVal.vNull, []) :=
  render_transitional_no_content _ _ (by decide) (by decide)

/-- C10: generic content resolution `getChildrenOrFunction`: every falsy
content value — empty string, zero, `false`, `null`, `undefined`, not only
an absent one — resolves to `null`; a function is invoked with the props
bundle and its result returned as-is; any truthy non-function value is
returned unchanged. -/
theorem getChildrenOrFunction_resolution (p : IAzureADFunctionProps α) :
    (∀ v, truthy v = false →
      getChildrenOrFunction (Children.static v) p = JSVal.vNull) ∧
    getChildrenOrFunction (Children.static (JSVal.vStr "")) p = JSVal.vNull ∧
    getChildrenOrFunction (Children.static (JSVal.vNum 0)) p = JSVal.vNull ∧
    getChildrenOrFunction (Children.static (JSVal.vBool false)) p = JSVal.vNull ∧
    getChildrenOrFunction (Children.static JSVal.vNull) p = JSVal.vNull ∧
    (∀ f, getChildrenOrFunction (Children.func f) p = f p) ∧
    (∀ v, truthy v = true → getChildrenOrFunction (Children.static v) p = v) ∧
    getChildrenOrFunction Children.absent p = JSVal.vNull := by
  refine ⟨?_, ?_, ?_, ?_, ?_, ?_, ?_, ?_⟩
  · intro v hv; simp [getChildrenOrFunction, hv]
  · simp [getChildrenOrFunction, truthy]
  · simp [getChildrenOrFunction, truthy]
  · simp [getChildrenOrFunction, truthy]
  · simp [getChildrenOrFunction, truthy]
  · intro f; rfl
  · intro v hv; simp [getChildrenOrFunction, hv]
  · rfl

/-- C10 witness: the empty string, a falsy non-absent value, resolves to
`null` at a concrete props bundle. -/
theorem getChildrenOrFunction_resolution_ev :
    getChildrenOrFunction (Children.static (JSVal.vStr ""))
      (⟨ActionRef.providerLogin, ActionRef.providerLogout,
        AuthenticationState.Authenticated, some 0⟩ : IAzureADFunctionProps Nat) =
      JSVal.vNull :=
  (getChildrenOrFunction_resolution
    (⟨ActionRef.providerLogin, ActionRef.providerLogout,
      AuthenticationState.Authenticated, some 0⟩ : IAzureADFunctionProps Nat)).2.1

end AzureAD

namespace AzureAD

variable {α : Type}

/-- C1: a state-change notification delivering `Unauthenticated`, different
from the current snapshot value, on a mounted bridge with `forceLogin`
set: the trace is exactly the re-render of the updated snapshot followed
by the login action — the login fires exactly once, and only after the
snapshot's authentication-state update is observable. -/
theorem transition_forces_single_login_after_rerender [DecidableEq α]
    (props : BridgeProps) (c : Component α)
    (hm : c.mounted = true) (hf : props.forceLogin = true)
    (hne : AuthenticationState.Unauthenticated ≠ c.state.authenticationState) :
    (setAuthenticationState props c AuthenticationState.Unauthenticated).2 =
      [Effect.rerender
         (setAuthenticationState props c AuthenticationState.Unauthenticated).1.state,
       Effect.providerLogin] ∧
    (setAuthenticationState props c
        AuthenticationState.Unauthenticated).1.state.authenticationState =
      AuthenticationState.Unauthenticated ∧
    ((setAuthenticationState props c AuthenticationState.Unauthenticated).2).count
        Effect.providerLogin = 1 := by
  unfold setAuthenticationState reactSetState
  simp [hne, hm, hf, List.count_cons, List.count_nil, beq_iff_eq]

/-- C1 witness: an `Authenticated → Unauthenticated` notification with
`forceLogin` produces the re-render first and the login exactly once. -/
theorem transition_forces_single_login_after_rerender_ev :
    (setAuthenticationState ⟨true, false, false⟩
        (⟨⟨some 1, AuthenticationState.Authenticated⟩, true⟩ : Component Nat)
        AuthenticationState.Unauthenticated).2 =
      [Effect.rerender ⟨some 1, AuthenticationState.Unauthenticated⟩,
       Effect.providerLogin] := by
  have h := transition_forces_single_login_after_rerender
      ⟨true, false, false⟩
      (⟨⟨some 1, AuthenticationState.Authenticated⟩, true⟩ : Component Nat)
      rfl rfl (by decide)
  rw [h.1]
  rfl

/-- C2: construction reads the snapshot synchronously off the provider
handle (the resulting state is exactly the provider's current account info
and authentication state, in every case); when the initial state is
`Authenticated` with non-null account info, construction is exactly the
registrations followed by one run of `onAccountInfoChanged` on that info;
when the initial state is `Unauthenticated` with `forceLogin`, the trace
is the registrations followed by the login action, which therefore fires
exactly once during construction. -/
theorem construct_snapshot_and_dispatch [DecidableEq α]
    (props : BridgeProps) (provider : MsalAuthProvider α) :
    (construct props provider).1.state =
      ⟨provider.accountInfo, provider.authenticationState⟩ ∧
    (∀ a, provider.authenticationState = AuthenticationState.Authenticated →
      provider.accountInfo = some a →
      construct props provider =
        ((onAccountInfoChanged props (initialComponent provider) a).1,
         constructRegs props ++
           (onAccountInfoChanged props (initialComponent provider) a).2)) ∧
    (provider.authenticationState = AuthenticationState.Unauthenticated →
      props.forceLogin = true →
      (construct props provider).2 =
        constructRegs props ++ [Effect.providerLogin] ∧
      ((construct props provider).2).count Effect.providerLogin = 1) := by
  refine ⟨?_, ?_, ?_⟩
  · rcases provider with ⟨ai, as⟩
    cases as <;> cases ai <;>
      by_cases hcb : props.hasAccountInfoCallback <;>
      by_cases hf : props.forceLogin <;>
        simp [construct, initialComponent, onAccountInfoChanged, reactSetState,
              constructRegs, login, hcb, hf]
  · intro a hA hai
    simp [construct, initialComponent, hA, hai]
  · intro hU hf
    by_cases hr : props.hasReduxStore <;>
      simp [construct, initialComponent, constructRegs, login, hU, hf, hr,
            List.count_append, List.count_cons, List.count_nil, beq_iff_eq]

/-- C2 witness: constructed `Authenticated` with account info present, the
whole construction is the registrations followed by exactly one run of the
account-info handler on that info. -/
theorem construct_snapshot_and_dispatch_ev :
    construct ⟨true, true, true⟩
        (⟨some 4, AuthenticationState.Authenticated⟩ : MsalAuthProvider Nat) =
      ((onAccountInfoChanged ⟨true, true, true⟩
          (initialComponent ⟨some 4, AuthenticationState.Authenticated⟩) 4).1,
       constructRegs ⟨true, true, true⟩ ++
         (onAccountInfoChanged ⟨true, true, true⟩
            (initialComponent ⟨some 4, AuthenticationState.Authenticated⟩) 4).2) :=
  (construct_snapshot_and_dispatch ⟨true, true, true⟩ _).2.1 4 rfl rfl

/-- C3: construction registers exactly one handler per notification
channel; teardown emits exactly the two matching unregistrations, once
each; and a notification delivered after teardown leaves the torn-down
snapshot unchanged (the handlers are total functions, so no notification
can throw). -/
theorem subscription_lifecycle [DecidableEq α] (props : BridgeProps)
    (provider : MsalAuthProvider α) (c : Component α) :
    ((construct props provider).2).count
        Effect.registerAuthenticationStateHandler = 1 ∧
    ((construct props provider).2).count Effect.registerAcountInfoHandler = 1 ∧
    (componentWillUnmount c).2 =
      [Effect.unregisterAuthenticationStateHandler,
       Effect.unregisterAccountInfoHandler] ∧
    (∀ n, (setAuthenticationState props (componentWillUnmount c).1 n).1.state
      = c.state) ∧
    (∀ a, (onAccountInfoChanged props (componentWillUnmount c).1 a).1.state
      = c.state) := by
  refine ⟨?_, ?_, rfl, ?_, ?_⟩
  · rcases provider with ⟨ai, as⟩
    cases as <;> cases ai <;>
      by_cases hcb : props.hasAccountInfoCallback <;>
      by_cases hf : props.forceLogin <;>
      by_cases hr : props.hasReduxStore <;>
        simp [construct, initialComponent, onAccountInfoChanged, reactSetState,
              constructRegs, login, hcb, hf, hr,
              List.count_append, List.count_cons, List.count_nil, beq_iff_eq]
  · rcases provider with ⟨ai, as⟩
    cases as <;> cases ai <;>
      by_cases hcb : props.hasAccountInfoCallback <;>
      by_cases hf : props.forceLogin <;>
      by_cases hr : props.hasReduxStore <;>
        simp [construct, initialComponent, onAccountInfoChanged, reactSetState,
              constructRegs, login, hcb, hf, hr,
              List.count_append, List.count_cons, List.count_nil, beq_iff_eq]
  · intro n
    unfold componentWillUnmount setAuthenticationState reactSetState
    by_cases h : n = c.state.authenticationState <;> simp [h]
  · intro a
    unfold componentWillUnmount onAccountInfoChanged reactSetState
    by_cases hcb : props.hasAccountInfoCallback <;> simp [hcb]

/-- C4: the account-info handler on a mounted bridge unconditionally
replaces the snapshot's account info with the delivered value (also when
it is structurally equal to the previous one — the theorem quantifies over
every delivered value), leaves the authentication state alone, and, when
the deprecated callback was supplied, emits one deprecation warning and
one callback invocation after the snapshot update, per invocation; over
any sequence of notifications the snapshot holds the most recently
delivered value and the warning count equals the number of
notifications. -/
theorem account_info_handler_unconditional [DecidableEq α] (props : BridgeProps)
    (c : Component α) (hm : c.mounted = true) :
    (∀ a,
      (onAccountInfoChanged props c a).1.state.accountInfo = some a ∧
      (onAccountInfoChanged props c a).1.state.authenticationState =
        c.state.authenticationState ∧
      (props.hasAccountInfoCallback = true →
        (onAccountInfoChanged props c a).2 =
          [Effect.rerender (onAccountInfoChanged props c a).1.state,
           Effect.warn Warning.accountInfoCallbackDeprecated,
           Effect.accountInfoCallback a]) ∧
      (props.hasAccountInfoCallback = false →
        (onAccountInfoChanged props c a).2 =
          [Effect.rerender (onAccountInfoChanged props c a).1.state])) ∧
    (∀ as l, as.getLast? = some l →
      (applyAccountNotifications props c as).1.state.accountInfo = some l) ∧
    (props.hasAccountInfoCallback = true → ∀ as : List α,
      ((applyAccountNotifications props c as).2).count
          (Effect.warn Warning.accountInfoCallbackDeprecated) = as.length) := by
  refine ⟨?_, ?_, ?_⟩
  · intro a
    refine ⟨onAccountInfoChanged_account props c hm a,
            onAccountInfoChanged_auth props c a, ?_, ?_⟩ <;>
      intro hcb <;> simp [onAccountInfoChanged, reactSetState, hm, hcb]
  · intro as l hl
    exact applyAccountNotifications_last props as c hm l hl
  · intro hcb as
    exact applyAccountNotifications_warnCount props hcb as c

/-- C4 witness: delivering an account info structurally equal to the one
already held still re-renders, warns once and invokes the callback once,
in that order. -/
theorem account_info_handler_unconditional_ev :
    (onAccountInfoChanged ⟨false, false, true⟩
        (⟨⟨some 2, AuthenticationState.Authenticated⟩, true⟩ : Component Nat) 2).2 =
      [Effect.rerender ⟨some 2, AuthenticationState.Authenticated⟩,
       Effect.warn Warning.accountInfoCallbackDeprecated,
       Effect.accountInfoCallback 2] := by
  have h := ((account_info_handler_unconditional ⟨false, false, true⟩
      (⟨⟨some 2, AuthenticationState.Authenticated⟩, true⟩ : Component Nat)
      rfl).1 2).2.2.1 rfl
  rw [h]
  rfl

/-- C5: a state-change notification equal to the current snapshot value is
an identity on the bridge and emits no effects at all — no re-render and
no login action, also when `forceLogin` is set and the delivered value is
`Unauthenticated` (the delivered value then equals the current one); over
any sequence of notifications the snapshot's authentication state equals
the most recently delivered value. -/
theorem state_handler_noop_and_tracks_last (props : BridgeProps) (c : Component α)
    (hm : c.mounted = true) :
    setAuthenticationState props c c.state.authenticationState = (c, []) ∧
    (∀ ns l, ns.getLast? = some l →
      (applyStateNotifications props c ns).1.state.authenticationState = l) := by
  refine ⟨?_, ?_⟩
  · unfold setAuthenticationState
    simp
  · intro ns l hl
    exact applyStateNotifications_last props ns c hm l hl

/-- C5 witness: an `Unauthenticated` notification on a bridge already
`Unauthenticated`, with `forceLogin` set, changes nothing and fires no
login. -/
theorem state_handler_noop_and_tracks_last_ev :
    setAuthenticationState ⟨true, false, false⟩
        (⟨⟨none, AuthenticationState.Unauthenticated⟩, true⟩ : Component Nat)
        AuthenticationState.Unauthenticated =
      (⟨⟨none, AuthenticationState.Unauthenticated⟩, true⟩, []) :=
  (state_handler_noop_and_tracks_last ⟨true, false, false⟩ _ rfl).1

/-- C6: `logout` is guarded — while the snapshot state is not
`Authenticated` it makes zero calls to the provider's logout action (and,
being a pure function of the component that returns only a trace, touches
no state); when the state is `Authenticated` it delegates to the
provider's logout action. -/
theorem logout_guarded (c : Component α) :
    (c.state.authenticationState ≠ AuthenticationState.Authenticated →
      logout c = ([] : List (Effect α))) ∧
    (c.state.authenticationState = AuthenticationState.Authenticated →
      logout c = [Effect.providerLogout]) := by
  refine ⟨?_, ?_⟩ <;> intro h <;> simp [logout, h]

/-- C6 witness: logout while `Unauthenticated` produces zero provider
calls. -/
theorem logout_guarded_ev :
    logout (⟨⟨none, AuthenticationState.Unauthenticated⟩, true⟩ : Component Nat)
      = [] :=
  (logout_guarded _).1 (by decide)

end AzureAD

namespace AzureAD

/-- C3 witness: at a concrete torn-down bridge, teardown emits exactly the
two unregistrations. -/
theorem subscription_lifecycle_ev :
    (componentWillUnmount
        (⟨⟨some 3, AuthenticationState.Authenticated⟩, true⟩ : Component Nat)).2 =
      [Effect.unregisterAuthenticationStateHandler,
       Effect.unregisterAccountInfoHandler] :=
  (subscription_lifecycle ⟨true, true, true⟩
    (⟨some 3, AuthenticationState.Authenticated⟩ : MsalAuthProvider Nat) _).2.2.1

end AzureAD
